import Mathlib

set_option autoImplicit false

/-! Verification of the umtools record-to-SQLite mapper: a shallow embedding of
src/umtools/user.py, src/umtools/utils.py and src/umtools/sqlite_um.py, with
theorems about primary-key resolution, schema derivation, query generation and
the connection-scope discipline. -/

namespace UMTools

/-- Python runtime values appearing in record fields and table rows. -/
inductive PyVal where
  | none
  | int (n : Int)
  | str (s : String)
  deriving Repr, DecidableEq

/-- A Python static type as seen through typing.get_args: its printed name and
its argument tuple. A union type is a type whose argument tuple is nonempty. -/
structure PyType where
  name : String
  args : List String
  deriving Repr, DecidableEq

/-- One dataclasses.Field carrying the um_field metadata of
src/umtools/user.py: the goes_to_db flag, the optional datatype override, the
optional column definition clause and the lookup-field flag, plus the field's
declared static type. -/
structure FieldDesc where
  name : String
  goes_to_db : Bool
  datatype : Option String
  definition : Option String
  lookup_field : Bool
  ftype : PyType
  deriving Repr, DecidableEq

/-- A user record type: the declared dataclass fields together with the two
class-level overrides without_rowid() and table_constraints() of
UserBaseModel. -/
structure RecordType where
  fields : List FieldDesc
  without_rowid : Bool
  table_constraints : String
  deriving Repr, DecidableEq

/-- The exceptions the embedded code paths raise. -/
inductive UMError where
  | noDbFields
  | multiplePK
  | noPK
  | compositePK
  | unionNeedsDatatype
  | lookupNotUnique
  deriving Repr, DecidableEq

/-- Characters of a string lowered per character (Python str.lower restricted
to the ASCII identifiers this code manipulates). -/
def charsLower (s : String) : List Char := s.data.map Char.toLower

/-- First index, counting from i, at which pat occurs in the scanned list
(the search core of Python str.find). -/
def findSubAux (pat : List Char) : List Char → Nat → Option Nat
  | [], i => if pat = [] then some i else Option.none
  | c :: rest, i =>
    if pat.isPrefixOf (c :: rest) then some i else findSubAux pat rest (i + 1)

/-- Python substring membership test, sub in s. -/
def containsSub (pat s : List Char) : Bool := (findSubAux pat s 0).isSome

/-- Python s.find(c, start), returning an index at or after start. -/
def findCharFrom (s : List Char) (c : Char) (start : Nat) : Option Nat :=
  match findSubAux [c] (s.drop start) 0 with
  | some j => some (start + j)
  | Option.none => Option.none

/-- Python slice s[start:e]. A missing e models the slice s[start:-1] that the
source produces when its str.find call returned -1. -/
def pySlice (s : List Char) (start : Nat) (e : Option Nat) : List Char :=
  match e with
  | some j => (s.take j).drop start
  | Option.none => (s.take (s.length - 1)).drop start

/-- Python text.split(chr(32))[0]: the prefix before the first space. -/
def firstToken (s : List Char) : List Char := s.takeWhile (fun c => c ≠ ' ')

/-- The case-insensitive marker pk_column scans for. -/
def pkMarker : List Char := "primary key".data

/-- UserBaseModel._get_db_fields: the persisted fields in declaration order;
raises when the list is empty. -/
def get_db_fields (ct : RecordType) : Except UMError (List FieldDesc) :=
  let db := ct.fields.filter (fun f => f.goes_to_db)
  if db.isEmpty then .error .noDbFields else .ok db

/-- The table-constraints step of UserBaseModel.pk_column: look for a
case-insensitive primary-key clause inside table_constraints(), cut the clause
at the next closing parenthesis, reject a comma-containing (composite) clause,
and otherwise take the clause text's first space-separated token. -/
def constraint_pk (constraints : String) : Except UMError (Option String) :=
  match findSubAux pkMarker (charsLower constraints) 0 with
  | Option.none => .ok Option.none
  | some start =>
    if (pySlice constraints.data start
        (findCharFrom (charsLower constraints) ')' start)).contains ',' then
      .error .compositePK
    else
      .ok (some (String.mk (firstToken (pySlice constraints.data start
        (findCharFrom (charsLower constraints) ')' start)))))

/-- Whether a field's definition clause carries the case-insensitive
primary-key marker. -/
def hasPKmarker (f : FieldDesc) : Bool :=
  match f.definition with
  | some d => containsSub pkMarker (charsLower d)
  | Option.none => false

/-- The field-scanning loop of UserBaseModel.pk_column: remembers the pk found
so far and raises on a second primary-key marker. -/
def pkFieldLoop (pk : Option String) : List FieldDesc → Except UMError (Option String)
  | [] => .ok pk
  | f :: rest =>
    if hasPKmarker f then
      match pk with
      | some _ => .error .multiplePK
      | Option.none => pkFieldLoop (some f.name) rest
    else pkFieldLoop pk rest

/-- UserBaseModel.pk_column: table-constraint scan, then the field scan, then
the fallback to the implicit rowid name unless without_rowid() forbids it. -/
def pk_column (ct : RecordType) : Except UMError String := do
  let pk0 ← constraint_pk ct.table_constraints
  let dbf ← get_db_fields ct
  let pk1 ← pkFieldLoop pk0 dbf
  match pk1 with
  | some p => pure p
  | Option.none => if ct.without_rowid then throw .noPK else pure "rowid"

/-- UserBaseModel.lookup_field: the first persisted field flagged as lookup
field, else whatever pk_column resolves to. -/
def lookup_field (ct : RecordType) : Except UMError String := do
  let dbf ← get_db_fields ct
  match dbf.find? (fun f => f.lookup_field) with
  | some f => pure f.name
  | Option.none => pk_column ct

/-- utils.get_datatype: the explicit metadata override when present; a
TypeError when typing.get_args of the static type is nonempty; else the static
type's name. -/
def get_datatype (f : FieldDesc) : Except UMError String :=
  match f.datatype with
  | some d => .ok d
  | Option.none =>
    if !f.ftype.args.isEmpty then .error .unionNeedsDatatype
    else .ok f.ftype.name

/-- The loop body of UserBaseModel.schema over the persisted fields. -/
def schemaLoop : List FieldDesc → Except UMError (List (String × String × String))
  | [] => .ok []
  | f :: rest => do
    let dt ← get_datatype f
    let tail ← schemaLoop rest
    .ok ((f.name, dt, f.definition.getD "") :: tail)

/-- UserBaseModel.schema: (name, datatype, definition) per persisted field, in
declaration order. -/
def schema (ct : RecordType) : Except UMError (List (String × String × String)) := do
  let dbf ← get_db_fields ct
  schemaLoop dbf

/-- UserBaseModel.select_keys: the pk alias column followed by every persisted
field name. -/
def select_keys (ct : RecordType) : Except UMError (List String) := do
  let pkc ← pk_column ct
  let dbf ← get_db_fields ct
  .ok ((pkc ++ " AS pk") :: dbf.map (fun f => f.name))

/-- One in-memory record instance: the pk attribute plus the map from
attribute names to current values (Python getattr). -/
structure Inst where
  pk : PyVal
  attrs : String → PyVal

/-- Python setattr restricted to the pk attribute. -/
def setPk (u : Inst) (v : PyVal) : Inst := ⟨v, u.attrs⟩

/-- Python setattr on a named attribute. -/
def setAttr (u : Inst) (n : String) (v : PyVal) : Inst :=
  ⟨u.pk, fun m => if m = n then v else u.attrs m⟩

/-- The loop body of UserBaseModel.insert_keys_and_values. -/
def insertLoop (attrs : String → PyVal) : List FieldDesc → List String × List PyVal
  | [] => ([], [])
  | f :: rest =>
    let tail := insertLoop attrs rest
    (f.name :: tail.1, attrs f.name :: tail.2)

/-- UserBaseModel.insert_keys_and_values: persisted field names and their
current values on the instance, in declaration order. -/
def insert_keys_and_values (ct : RecordType) (u : Inst) :
    Except UMError (List String × List PyVal) := do
  let dbf ← get_db_fields ct
  .ok (insertLoop u.attrs dbf)

/-- The loop body of UserBaseModel.update_pairs. -/
def updateLoop (attrs : String → PyVal) : List FieldDesc → List String × List PyVal
  | [] => ([], [])
  | f :: rest =>
    let tail := updateLoop attrs rest
    ((f.name ++ " = ?") :: tail.1, attrs f.name :: tail.2)

/-- UserBaseModel.update_pairs: one placeholder assignment and one value per
persisted field, in declaration order. -/
def update_pairs (ct : RecordType) (u : Inst) :
    Except UMError (List String × List PyVal) := do
  let dbf ← get_db_fields ct
  .ok (updateLoop u.attrs dbf)

/-- Modelled from the spec's words for comparison with update_pairs: update
assignments over the persisted fields EXCLUDING the one whose name equals the
primary-key column. -/
def update_pairs_spec (ct : RecordType) (u : Inst) :
    Except UMError (List String × List PyVal) := do
  let pkc ← pk_column ct
  let dbf ← get_db_fields ct
  let keep := dbf.filter (fun f => f.name ≠ pkc)
  .ok (keep.map (fun f => f.name ++ " = ?"), keep.map (fun f => u.attrs f.name))

/-- SQLiteUserManager.add_user with the database abstracted: the insert's
column/value computation followed by the post-insert pk assignment, where
lastrowid is the engine-assigned row identifier of the insert. -/
def add_user (ct : RecordType) (u : Inst) (lastrowid : Int) : Except UMError Inst := do
  let _kv ← insert_keys_and_values ct u
  if ct.without_rowid then do
    let pkc ← pk_column ct
    pure (setPk u (u.attrs pkc))
  else do
    let pkc ← pk_column ct
    let u1 := setPk u (PyVal.int lastrowid)
    if pkc ≠ "rowid" then pure (setAttr u1 pkc (PyVal.int lastrowid))
    else pure u1

/-- A row returned by the store, addressable by column name. -/
def Row : Type := String → PyVal

/-- SQLiteUserManager.get_users_by with exactly one column filter, against an
abstracted table: select_keys is computed for the SELECT column list, then the
rows whose named column equals the value are returned in table order. -/
def get_users_by_one (ct : RecordType) (table : List Row) (col : String) (v : PyVal) :
    Except UMError (List Row) := do
  let _sk ← select_keys ct
  .ok (table.filter (fun r => r col == v))

/-- SQLiteUserManager.get: look up by the lookup field; zero matches yield the
caller-supplied default itself, one match yields the row, more than one match
raises the ambiguous-lookup error. -/
def get {β : Type} (ct : RecordType) (table : List Row) (lookupVal : PyVal) (dflt : β) :
    Except UMError (Row ⊕ β) := do
  let lf ← lookup_field ct
  let users ← get_users_by_one ct table lf lookupVal
  match users with
  | [] => pure (Sum.inr dflt)
  | [u] => pure (Sum.inl u)
  | _ :: _ :: _ => throw .lookupNotUnique

/-- Python set equality of two name collections: mutual membership. -/
def setEq (a b : List String) : Bool :=
  a.all (fun x => b.contains x) && b.all (fun x => a.contains x)

/-- The marker validate_schema scans the stored table definition for. -/
def withoutRowidMarker : List Char := "without rowid".data

/-- SQLiteUserManager.validate_schema with the two catalog queries abstracted:
storedSchema is the table's definition text read from sqlite_master and
liveCols are the column names of one queried row. The check compares the
stored text's without-rowid flag with the record type's and the live column
names with the schema() column names as sets. -/
def validate_schema (ct : RecordType) (storedSchema : String) (liveCols : List String) :
    Except UMError Bool := do
  let storedWithoutRowid := containsSub withoutRowidMarker (charsLower storedSchema)
  let sch ← schema ct
  let estimated := sch.map (fun c => c.1)
  .ok ((storedWithoutRowid == ct.without_rowid) && setEq liveCols estimated)

/-- Observable actions on one sqlite3 connection handle. -/
inductive DbAction where
  | connect
  | execute (stmt : String)
  | commit
  | close
  deriving Repr, DecidableEq

/-- SQLiteUserManager._db_connection: connect, run the body on the handle, and
in the finally block commit and then close, whether or not the body raised.
The body maps the opened handle's action trace to the extended trace plus its
result, an error result standing for a raised exception that propagates. -/
def with_db_connection {α : Type} (body : List DbAction → List DbAction × Except String α) :
    List DbAction × Except String α :=
  let conn : List DbAction := [DbAction.connect]
  let r := body conn
  (r.1 ++ [DbAction.commit, DbAction.close], r.2)

/-- A field whose static type needs an explicit datatype override: no override
and a nonempty typing.get_args result. -/
def badUnion (f : FieldDesc) : Bool := f.datatype.isNone && !f.ftype.args.isEmpty

/-- A persisted field builder for the concrete record types below. -/
def mkField (n : String) (dt defn : Option String) (lk : Bool) (tn : String) : FieldDesc :=
  ⟨n, true, dt, defn, lk, ⟨tn, []⟩⟩

/-- The RowidUser record type of the repository's test suite: three persisted
fields, no primary-key marker, implicit rowid. -/
def rowidUser : RecordType :=
  ⟨[mkField "name" (some "TEXT") Option.none true "str",
    mkField "last_name" Option.none Option.none false "str",
    mkField "tel" Option.none (some "UNIQUE") false "int"], false, ""⟩

/-- The RowidAlias record type of the repository's test suite: an INTEGER
PRIMARY KEY ASC field aliasing the rowid plus a lookup field. -/
def rowidAlias : RecordType :=
  ⟨[mkField "id" (some "INTEGER") (some "PRIMARY KEY ASC") false "int",
    mkField "name" (some "TEXT") Option.none true "str"], false, ""⟩

/-- The UUIDUser record type of the repository's test suite: an explicit
primary-key field and without_rowid() true. -/
def uuidUser : RecordType :=
  ⟨[mkField "uuid" Option.none (some "PRIMARY KEY") false "UUID",
    mkField "name" Option.none Option.none false "str",
    mkField "tel" Option.none (some "UNIQUE") false "int"], true, ""⟩

/-- A RowidAlias instance holding a fresh record before insert. -/
def aliasInst : Inst :=
  ⟨PyVal.none, fun n => if n = "id" then PyVal.none
    else if n = "name" then PyVal.str "Arnold" else PyVal.none⟩

theorem except_bind_ok {ε α β : Type} (a : α) (f : α → Except ε β) :
    Bind.bind (Except.ok a) f = f a := rfl

theorem except_bind_error {ε α β : Type} (e : ε) (f : α → Except ε β) :
    Bind.bind (Except.error e : Except ε α) f = Except.error e := rfl

theorem pkFieldLoop_filter_nil (l : List FieldDesc) (pk : Option String)
    (h : l.filter hasPKmarker = []) : pkFieldLoop pk l = .ok pk := by
  induction l with
  | nil => rfl
  | cons f rest ih =>
    cases hf : hasPKmarker f with
    | true =>
      rw [List.filter_cons_of_pos (by simp [hf])] at h
      exact absurd h (by simp)
    | false =>
      rw [List.filter_cons_of_neg (by simp [hf])] at h
      simp [pkFieldLoop, hf, ih h]

theorem pkFieldLoop_filter_single (l : List FieldDesc) (f : FieldDesc)
    (h : l.filter hasPKmarker = [f]) :
    pkFieldLoop Option.none l = .ok (some f.name) := by
  induction l with
  | nil => simp at h
  | cons g rest ih =>
    cases hg : hasPKmarker g with
    | true =>
      rw [List.filter_cons_of_pos (by simp [hg])] at h
      injection h with h1 h2
      subst h1
      simp [pkFieldLoop, hg, pkFieldLoop_filter_nil rest (some g.name) h2]
    | false =>
      rw [List.filter_cons_of_neg (by simp [hg])] at h
      simp [pkFieldLoop, hg, ih h]

theorem pkFieldLoop_some_marker (l : List FieldDesc) (x : String)
    (h : l.filter hasPKmarker ≠ []) :
    pkFieldLoop (some x) l = .error .multiplePK := by
  induction l with
  | nil => simp at h
  | cons g rest ih =>
    cases hg : hasPKmarker g with
    | true => simp [pkFieldLoop, hg]
    | false =>
      rw [List.filter_cons_of_neg (by simp [hg])] at h
      simp [pkFieldLoop, hg, ih h]

theorem pkFieldLoop_two_markers (l : List FieldDesc) (pk : Option String)
    (h : 2 ≤ (l.filter hasPKmarker).length) :
    pkFieldLoop pk l = .error .multiplePK := by
  induction l generalizing pk with
  | nil => simp at h
  | cons g rest ih =>
    cases hg : hasPKmarker g with
    | true =>
      cases pk with
      | some x => simp [pkFieldLoop, hg]
      | none =>
        have hne : rest.filter hasPKmarker ≠ [] := by
          intro hnil
          rw [List.filter_cons_of_pos (by simp [hg]), hnil] at h
          simp at h
        simp [pkFieldLoop, hg, pkFieldLoop_some_marker rest g.name hne]
    | false =>
      rw [List.filter_cons_of_neg (by simp [hg])] at h
      simp [pkFieldLoop, hg, ih pk h]

theorem constraint_pk_no_marker (s : String)
    (h : containsSub pkMarker (charsLower s) = false) :
    constraint_pk s = .ok Option.none := by
  unfold constraint_pk
  unfold containsSub at h
  cases hf : findSubAux pkMarker (charsLower s) 0 with
  | none => simp [hf]
  | some i => rw [hf] at h; simp at h

theorem get_datatype_of_not_bad (f : FieldDesc) (h : badUnion f = false) :
    get_datatype f = .ok (f.datatype.getD f.ftype.name) := by
  unfold badUnion at h
  unfold get_datatype
  cases hd : f.datatype with
  | some d => simp [hd]
  | none =>
    rw [hd] at h
    simp only [Option.isNone_none, Bool.true_and, Bool.not_eq_true'] at h
    simp [hd, h]

theorem get_datatype_of_bad (f : FieldDesc) (h : badUnion f = true) :
    get_datatype f = .error .unionNeedsDatatype := by
  unfold badUnion at h
  unfold get_datatype
  cases hd : f.datatype with
  | some d => simp [hd] at h
  | none =>
    rw [hd] at h
    simp only [Option.isNone_none, Bool.true_and, Bool.not_eq_true'] at h
    simp [hd, h]

theorem schemaLoop_ok (l : List FieldDesc) (h : ∀ f ∈ l, badUnion f = false) :
    schemaLoop l =
      .ok (l.map (fun f => (f.name, f.datatype.getD f.ftype.name, f.definition.getD ""))) := by
  induction l with
  | nil => rfl
  | cons f rest ih =>
    have hf := h f (by simp)
    have hr := ih (fun g hg => h g (by simp [hg]))
    simp only [schemaLoop, List.map_cons]
    rw [get_datatype_of_not_bad f hf, hr]
    rfl

theorem schemaLoop_bad (l : List FieldDesc) (h : ∃ f ∈ l, badUnion f = true) :
    schemaLoop l = .error .unionNeedsDatatype := by
  induction l with
  | nil => simp at h
  | cons f rest ih =>
    cases hf : badUnion f with
    | true =>
      simp only [schemaLoop]
      rw [get_datatype_of_bad f hf]
      rfl
    | false =>
      have hrest : ∃ g ∈ rest, badUnion g = true := by
        obtain ⟨g, hg, hb⟩ := h
        rcases List.mem_cons.mp hg with rfl | hg2
        · rw [hf] at hb; exact absurd hb (by simp)
        · exact ⟨g, hg2, hb⟩
      simp only [schemaLoop]
      rw [get_datatype_of_not_bad f hf, ih hrest]
      rfl

theorem updateLoop_eq (attrs : String → PyVal) (l : List FieldDesc) :
    updateLoop attrs l =
      (l.map (fun f => f.name ++ " = ?"), l.map (fun f => attrs f.name)) := by
  induction l with
  | nil => rfl
  | cons f rest ih => simp [updateLoop, ih]

theorem pk_column_eq_some (ct : RecordType) (dbf : List FieldDesc) (pk0 : Option String)
    (p : String)
    (hc : constraint_pk ct.table_constraints = .ok pk0)
    (hdb : get_db_fields ct = .ok dbf)
    (hl : pkFieldLoop pk0 dbf = .ok (some p)) :
    pk_column ct = .ok p := by
  unfold pk_column
  rw [hc]
  simp only [except_bind_ok]
  rw [hdb]
  simp only [except_bind_ok]
  rw [hl]
  rfl

theorem pk_column_eq_none (ct : RecordType) (dbf : List FieldDesc) (pk0 : Option String)
    (hc : constraint_pk ct.table_constraints = .ok pk0)
    (hdb : get_db_fields ct = .ok dbf)
    (hl : pkFieldLoop pk0 dbf = .ok Option.none) :
    pk_column ct = if ct.without_rowid then .error .noPK else .ok "rowid" := by
  unfold pk_column
  rw [hc]
  simp only [except_bind_ok]
  rw [hdb]
  simp only [except_bind_ok]
  rw [hl]
  simp only [except_bind_ok]
  cases ct.without_rowid <;> rfl

theorem pk_column_eq_error (ct : RecordType) (dbf : List FieldDesc) (pk0 : Option String)
    (e : UMError)
    (hc : constraint_pk ct.table_constraints = .ok pk0)
    (hdb : get_db_fields ct = .ok dbf)
    (hl : pkFieldLoop pk0 dbf = .error e) :
    pk_column ct = .error e := by
  unfold pk_column
  rw [hc]
  simp only [except_bind_ok]
  rw [hdb]
  simp only [except_bind_ok]
  rw [hl]
  rfl

theorem setEq_iff (a b : List String) :
    setEq a b = true ↔ (∀ x, x ∈ a ↔ x ∈ b) := by
  unfold setEq
  simp only [Bool.and_eq_true, List.all_eq_true, List.contains, List.elem_iff]
  constructor
  · rintro ⟨h1, h2⟩ x
    exact ⟨fun hx => h1 x hx, fun hx => h2 x hx⟩
  · intro h
    exact ⟨fun x hx => (h x).mp hx, fun x hx => (h x).mpr hx⟩

/-- Claim C1, counterexample: for the RowidAlias record type of the test
suite, whose persisted field id is the primary-key column, update_pairs still
emits the assignment for id in first position, with id's value first in the
value list, while the spec-worded variant excludes them — so the claim that
the SET clause excludes the primary-key column is false on this input. -/
theorem update_pairs_includes_pk_cex :
    pk_column rowidAlias = .ok "id" ∧
    update_pairs rowidAlias aliasInst =
      .ok (["id = ?", "name = ?"], [PyVal.none, PyVal.str "Arnold"]) ∧
    update_pairs_spec rowidAlias aliasInst =
      .ok (["name = ?"], [PyVal.str "Arnold"]) :=
  ⟨rfl, rfl, rfl⟩

/-- Claim C1, amended: for every record type and instance, the update SET
clause contains one assignment name-equals-placeholder per persisted field,
in declaration order, with values in matching order; the primary-key column
is NOT excluded — it is absent only when the primary key is the implicit
rowid, which is never a persisted field. -/
theorem update_pairs_all_fields (ct : RecordType) (u : Inst) (dbf : List FieldDesc)
    (h : get_db_fields ct = .ok dbf) :
    update_pairs ct u =
      .ok (dbf.map (fun f => f.name ++ " = ?"), dbf.map (fun f => u.attrs f.name)) := by
  unfold update_pairs
  rw [h]
  simp only [except_bind_ok]
  rw [updateLoop_eq]

/-- Claim C1, witness for the amended theorem at the RowidUser record type. -/
theorem update_pairs_all_fields_witness :
    update_pairs rowidUser aliasInst =
      .ok (["name = ?", "last_name = ?", "tel = ?"],
        [PyVal.str "Arnold", PyVal.none, PyVal.none]) := by
  rw [update_pairs_all_fields rowidUser aliasInst
    [mkField "name" (some "TEXT") Option.none true "str",
     mkField "last_name" Option.none Option.none false "str",
     mkField "tel" Option.none (some "UNIQUE") false "int"] rfl]
  rfl

/-- A data-access body that issues one statement and then raises. -/
def failingBody : List DbAction → List DbAction × Except String Unit :=
  fun conn =>
    (conn ++ [DbAction.execute "INSERT INTO users(name) VALUES (?);"],
     .error "UNIQUE constraint failed")

/-- Claim C2, counterexample: a body that raises still gets its handle
committed — the finally block of _db_connection runs commit and then close on
the failure path too, so the claim that on exception the handle is closed
without committing is false. -/
theorem db_connection_commits_on_failure_cex :
    (with_db_connection failingBody).2 = Except.error "UNIQUE constraint failed" ∧
    DbAction.commit ∈ (with_db_connection failingBody).1 :=
  ⟨rfl, by simp [with_db_connection, failingBody]⟩

/-- Claim C2, amended: on every exit path of a data-access operation, success
or failure alike, the handle runs commit and then close; the partially-issued
statements of a failing operation are therefore committed, not left
uncommitted, and commit is not restricted to the success path. -/
theorem db_connection_commit_close_always {α : Type}
    (body : List DbAction → List DbAction × Except String α)
    (acts : List DbAction) (res : Except String α)
    (h : body [DbAction.connect] = (acts, res)) :
    with_db_connection body = (acts ++ [DbAction.commit, DbAction.close], res) := by
  unfold with_db_connection
  show ((body [DbAction.connect]).1 ++ [DbAction.commit, DbAction.close],
      (body [DbAction.connect]).2) = _
  rw [h]

/-- Claim C2, witness for the amended theorem at a failing body. -/
theorem db_connection_commit_close_always_witness :
    with_db_connection failingBody =
      ([DbAction.connect, DbAction.execute "INSERT INTO users(name) VALUES (?);",
        DbAction.commit, DbAction.close], Except.error "UNIQUE constraint failed") :=
  db_connection_commit_close_always failingBody
    [DbAction.connect, DbAction.execute "INSERT INTO users(name) VALUES (?);"]
    (Except.error "UNIQUE constraint failed") rfl

/-- A record type with exactly one primary-key-marked field whose
table_constraints() text also declares a primary key. -/
def constraintAndField : RecordType :=
  ⟨[mkField "id" (some "INTEGER") (some "PRIMARY KEY ASC") false "int"],
   false, "PRIMARY KEY (id)"⟩

/-- Claim C3, counterexample: a record type with exactly one
primary-key-marked field for which pk_column raises the multiple-primary-keys
error instead of returning that field's name, because its table_constraints()
text also declares a primary key. -/
theorem pk_column_field_name_cex :
    (constraintAndField.fields.filter hasPKmarker).map FieldDesc.name = ["id"] ∧
    pk_column constraintAndField = .error .multiplePK :=
  ⟨rfl, rfl⟩

/-- Claim C3, amended: for every record type with at least one persisted
field and whose table_constraints() text contains no case-insensitive
primary-key marker, if exactly one persisted field's definition clause
carries the marker then pk_column returns that field's name, and if no
persisted field carries it and without_rowid() is false then pk_column
returns the implicit default identifier name rowid. -/
theorem pk_column_field_resolution (ct : RecordType) (dbf : List FieldDesc) (f : FieldDesc)
    (hc : containsSub pkMarker (charsLower ct.table_constraints) = false)
    (hdb : get_db_fields ct = .ok dbf) :
    (dbf.filter hasPKmarker = [f] → pk_column ct = .ok f.name) ∧
    (dbf.filter hasPKmarker = [] → ct.without_rowid = false → pk_column ct = .ok "rowid") := by
  have hc0 := constraint_pk_no_marker ct.table_constraints hc
  constructor
  · intro hone
    exact pk_column_eq_some ct dbf Option.none f.name hc0 hdb
      (pkFieldLoop_filter_single dbf f hone)
  · intro hnil hwr
    rw [pk_column_eq_none ct dbf Option.none hc0 hdb
      (pkFieldLoop_filter_nil dbf Option.none hnil), hwr]
    rfl

/-- Claim C3, witness for the amended theorem: the explicitly marked id field
of RowidAlias and the marker-free RowidUser type with implicit rowid. -/
theorem pk_column_field_resolution_witness :
    pk_column rowidAlias = .ok "id" ∧ pk_column rowidUser = .ok "rowid" := by
  constructor
  · exact (pk_column_field_resolution rowidAlias
      [mkField "id" (some "INTEGER") (some "PRIMARY KEY ASC") false "int",
       mkField "name" (some "TEXT") Option.none true "str"]
      (mkField "id" (some "INTEGER") (some "PRIMARY KEY ASC") false "int")
      rfl rfl).1 rfl
  · exact (pk_column_field_resolution rowidUser
      [mkField "name" (some "TEXT") Option.none true "str",
       mkField "last_name" Option.none Option.none false "str",
       mkField "tel" Option.none (some "UNIQUE") false "int"]
      (mkField "name" (some "TEXT") Option.none true "str")
      rfl rfl).2 rfl rfl

/-- A without_rowid record type with no marked field but a primary-key clause
in its table_constraints() text. -/
def constraintWithoutRowid : RecordType :=
  ⟨[mkField "name" Option.none Option.none false "str"], true, "PRIMARY KEY (name)"⟩

/-- Claim C6, counterexample: a record type declaring without_rowid() true
with no primary-key-marked field for which pk_column does not fail at all —
it resolves a pk from the table_constraints() text (returning that clause
text's first token) — so the claim that every such type fails with the
no-primary-key error is false. -/
theorem pk_column_no_pk_error_cex :
    constraintWithoutRowid.without_rowid = true ∧
    constraintWithoutRowid.fields.filter hasPKmarker = [] ∧
    pk_column constraintWithoutRowid = .ok "PRIMARY" :=
  ⟨rfl, rfl, rfl⟩

/-- Claim C6, amended: for every record type declaring without_rowid() true,
with at least one persisted field, no persisted field carrying the
primary-key marker, and a table_constraints() text without the marker,
pk_column fails with the no-primary-key error. -/
theorem pk_column_no_pk_error (ct : RecordType) (dbf : List FieldDesc)
    (hc : containsSub pkMarker (charsLower ct.table_constraints) = false)
    (hdb : get_db_fields ct = .ok dbf)
    (hnil : dbf.filter hasPKmarker = [])
    (hwr : ct.without_rowid = true) :
    pk_column ct = .error .noPK := by
  rw [pk_column_eq_none ct dbf Option.none
    (constraint_pk_no_marker ct.table_constraints hc) hdb
    (pkFieldLoop_filter_nil dbf Option.none hnil), hwr]
  rfl

/-- A without_rowid record type with one unmarked persisted field and empty
table constraints. -/
def noPkWithoutRowid : RecordType :=
  ⟨[mkField "name" Option.none Option.none false "str"], true, ""⟩

/-- Claim C6, witness for the amended theorem. -/
theorem pk_column_no_pk_error_witness :
    pk_column noPkWithoutRowid = .error .noPK :=
  pk_column_no_pk_error noPkWithoutRowid
    [mkField "name" Option.none Option.none false "str"] rfl rfl rfl rfl

/-- Claim C7, amended: for every record type in which more than one persisted
field carries the primary-key marker, provided the table-constraints scan
itself does not raise (its primary-key clause, if any, names a single
column), pk_column fails with the multiple-primary-keys error. -/
theorem pk_column_multiple_pk_error (ct : RecordType) (dbf : List FieldDesc)
    (pk0 : Option String)
    (hc : constraint_pk ct.table_constraints = .ok pk0)
    (hdb : get_db_fields ct = .ok dbf)
    (h2 : 2 ≤ (dbf.filter hasPKmarker).length) :
    pk_column ct = .error .multiplePK :=
  pk_column_eq_error ct dbf pk0 .multiplePK hc hdb
    (pkFieldLoop_two_markers dbf pk0 h2)

/-- A record type with two primary-key-marked fields and no table
constraints. -/
def twoPKFields : RecordType :=
  ⟨[mkField "a" Option.none (some "PRIMARY KEY") false "int",
    mkField "b" Option.none (some "PRIMARY KEY") false "int"], false, ""⟩

/-- Claim C7, witness for the amended theorem. -/
theorem pk_column_multiple_pk_error_witness :
    pk_column twoPKFields = .error .multiplePK :=
  pk_column_multiple_pk_error twoPKFields
    [mkField "a" Option.none (some "PRIMARY KEY") false "int",
     mkField "b" Option.none (some "PRIMARY KEY") false "int"]
    Option.none rfl rfl (by decide)

/-- A record type with two primary-key-marked fields whose
table_constraints() text holds a composite primary-key clause. -/
def twoPKFieldsComposite : RecordType :=
  ⟨[mkField "a" Option.none (some "PRIMARY KEY") false "int",
    mkField "b" Option.none (some "PRIMARY KEY") false "int"],
   false, "PRIMARY KEY (a, b)"⟩

/-- Claim C7, counterexample: a record type with two primary-key-marked
fields for which pk_column fails with the composite-key ValueError from the
table-constraints scan, not with the multiple-primary-keys error the claim
names. -/
theorem pk_column_multiple_pk_cex :
    2 ≤ (twoPKFieldsComposite.fields.filter hasPKmarker).length ∧
    pk_column twoPKFieldsComposite = .error .compositePK :=
  ⟨by decide, rfl⟩

theorem constraint_pk_comma (s : String) (start : Nat)
    (hf : findSubAux pkMarker (charsLower s) 0 = some start)
    (hcomma : (pySlice s.data start (findCharFrom (charsLower s) ')' start)).contains ','
      = true) :
    constraint_pk s = .error .compositePK := by
  unfold constraint_pk
  split
  · rename_i heq
    rw [hf] at heq
    exact absurd heq (by simp)
  · rename_i st heq
    rw [hf] at heq
    injection heq with heq2
    subst heq2
    rw [if_pos hcomma]

theorem pk_column_constraint_error (ct : RecordType) (e : UMError)
    (hc : constraint_pk ct.table_constraints = .error e) :
    pk_column ct = .error e := by
  unfold pk_column
  rw [hc]
  rfl

/-- Claim C10: pk_column also resolves a primary key declared in the
table_constraints() text — a comma-containing (composite) table-level
primary-key clause fails with the composite-key error; a single-column
table-level primary key combined with any field-level primary-key marker
fails with the multiple-primary-keys error; and a single-column table-level
primary key with no field-level marker is resolved from the constraint text
alone (as the clause text's first space-separated token). -/
theorem pk_column_constraints_resolution :
    (∀ (ct : RecordType) (start : Nat),
      findSubAux pkMarker (charsLower ct.table_constraints) 0 = some start →
      (pySlice ct.table_constraints.data start
        (findCharFrom (charsLower ct.table_constraints) ')' start)).contains ',' = true →
      pk_column ct = .error .compositePK) ∧
    (∀ (ct : RecordType) (dbf : List FieldDesc) (c : String),
      constraint_pk ct.table_constraints = .ok (some c) →
      get_db_fields ct = .ok dbf →
      dbf.filter hasPKmarker ≠ [] →
      pk_column ct = .error .multiplePK) ∧
    (∀ (ct : RecordType) (dbf : List FieldDesc) (c : String),
      constraint_pk ct.table_constraints = .ok (some c) →
      get_db_fields ct = .ok dbf →
      dbf.filter hasPKmarker = [] →
      pk_column ct = .ok c) := by
  refine ⟨?_, ?_, ?_⟩
  · intro ct start hf hcomma
    exact pk_column_constraint_error ct .compositePK
      (constraint_pk_comma ct.table_constraints start hf hcomma)
  · intro ct dbf c hc hdb hne
    exact pk_column_eq_error ct dbf (some c) .multiplePK hc hdb
      (pkFieldLoop_some_marker dbf c hne)
  · intro ct dbf c hc hdb hnil
    exact pk_column_eq_some ct dbf (some c) c hc hdb
      (pkFieldLoop_filter_nil dbf (some c) hnil)

/-- A record type whose only primary key is a composite table-level clause. -/
def compositeOnly : RecordType :=
  ⟨[mkField "x" Option.none Option.none false "int"], false, "PRIMARY KEY (x, y)"⟩

/-- A record type with both a table-level primary-key clause and a
field-level marker. -/
def interferingType : RecordType :=
  ⟨[mkField "id" Option.none (some "PRIMARY KEY") false "int"],
   false, "PRIMARY KEY (id)"⟩

/-- A record type whose only primary key comes from the table-level clause. -/
def constraintOnly : RecordType :=
  ⟨[mkField "name" Option.none Option.none false "str"], false, "PRIMARY KEY (name)"⟩

/-- Claim C10, witness covering the three conjuncts at concrete record
types. -/
theorem pk_column_constraints_resolution_witness :
    pk_column compositeOnly = .error .compositePK ∧
    pk_column interferingType = .error .multiplePK ∧
    pk_column constraintOnly = .ok "PRIMARY" :=
  ⟨pk_column_constraints_resolution.1 compositeOnly 0 rfl rfl,
   pk_column_constraints_resolution.2.1 interferingType
     [mkField "id" Option.none (some "PRIMARY KEY") false "int"] "PRIMARY"
     rfl rfl (by decide),
   pk_column_constraints_resolution.2.2 constraintOnly
     [mkField "name" Option.none Option.none false "str"] "PRIMARY" rfl rfl rfl⟩

/-- Claim C4: after a successful insert, add_user sets record.pk from the
record's own primary-key-column attribute when the type declares
without_rowid() true; otherwise it sets record.pk to the engine-assigned
lastrowid of the insert and copies that identifier onto the
primary-key-column attribute exactly when that column's name differs from
rowid. -/
theorem add_user_pk_assignment (ct : RecordType) (u : Inst) (rid : Int)
    (dbf : List FieldDesc) (pkc : String)
    (hdb : get_db_fields ct = .ok dbf)
    (hpk : pk_column ct = .ok pkc) :
    (ct.without_rowid = true → add_user ct u rid = .ok (setPk u (u.attrs pkc))) ∧
    (ct.without_rowid = false → pkc ≠ "rowid" →
      add_user ct u rid = .ok (setAttr (setPk u (PyVal.int rid)) pkc (PyVal.int rid))) ∧
    (ct.without_rowid = false → pkc = "rowid" →
      add_user ct u rid = .ok (setPk u (PyVal.int rid))) := by
  have hins : insert_keys_and_values ct u = .ok (insertLoop u.attrs dbf) := by
    unfold insert_keys_and_values
    rw [hdb]
    rfl
  refine ⟨?_, ?_, ?_⟩
  · intro hwr
    unfold add_user
    rw [hins]
    simp only [except_bind_ok]
    rw [hwr, if_pos rfl, hpk]
    simp only [except_bind_ok]
    rfl
  · intro hwr hne
    unfold add_user
    rw [hins]
    simp only [except_bind_ok]
    rw [hwr, if_neg (by simp), hpk]
    simp only [except_bind_ok]
    rw [if_pos hne]
    rfl
  · intro hwr hrow
    unfold add_user
    rw [hins]
    simp only [except_bind_ok]
    rw [hwr, if_neg (by simp), hpk]
    simp only [except_bind_ok]
    rw [if_neg (not_not_intro hrow)]
    rfl

/-- A UUIDUser instance before insert. -/
def uuidProbe : Inst :=
  ⟨PyVal.none, fun n => if n = "uuid" then PyVal.str "8f1e-id" else PyVal.int 1⟩

/-- A RowidAlias instance before insert. -/
def aliasProbe : Inst :=
  ⟨PyVal.none, fun n => if n = "name" then PyVal.str "Arnold" else PyVal.none⟩

/-- A RowidUser instance before insert. -/
def rowidProbe : Inst := ⟨PyVal.none, fun n => PyVal.str n⟩

/-- Claim C4, witness covering the three branches: without_rowid type,
rowid-aliasing explicit pk, and implicit rowid pk. -/
theorem add_user_pk_assignment_witness :
    add_user uuidUser uuidProbe 5 = .ok (setPk uuidProbe (uuidProbe.attrs "uuid")) ∧
    add_user rowidAlias aliasProbe 7 =
      .ok (setAttr (setPk aliasProbe (PyVal.int 7)) "id" (PyVal.int 7)) ∧
    add_user rowidUser rowidProbe 3 = .ok (setPk rowidProbe (PyVal.int 3)) :=
  ⟨(add_user_pk_assignment uuidUser uuidProbe 5
      [mkField "uuid" Option.none (some "PRIMARY KEY") false "UUID",
       mkField "name" Option.none Option.none false "str",
       mkField "tel" Option.none (some "UNIQUE") false "int"] "uuid" rfl rfl).1 rfl,
   ((add_user_pk_assignment rowidAlias aliasProbe 7
      [mkField "id" (some "INTEGER") (some "PRIMARY KEY ASC") false "int",
       mkField "name" (some "TEXT") Option.none true "str"] "id" rfl rfl).2.1 rfl
      (by decide)),
   ((add_user_pk_assignment rowidUser rowidProbe 3
      [mkField "name" (some "TEXT") Option.none true "str",
       mkField "last_name" Option.none Option.none false "str",
       mkField "tel" Option.none (some "UNIQUE") false "int"] "rowid" rfl rfl).2.2 rfl
      rfl)⟩

/-- Claim C5: get raises the ambiguous-lookup error when more than one row
matches the lookup field, and returns the caller-supplied default itself when
zero rows match. -/
theorem get_default_and_ambiguous {β : Type} (ct : RecordType) (table : List Row)
    (v : PyVal) (dflt : β) (lf : String) (sk : List String)
    (hlf : lookup_field ct = .ok lf)
    (hsk : select_keys ct = .ok sk) :
    (table.filter (fun r => r lf == v) = [] →
      get ct table v dflt = .ok (Sum.inr dflt)) ∧
    (2 ≤ (table.filter (fun r => r lf == v)).length →
      get ct table v dflt = .error .lookupNotUnique) := by
  have hq : get_users_by_one ct table lf v = .ok (table.filter (fun r => r lf == v)) := by
    unfold get_users_by_one
    rw [hsk]
    rfl
  constructor
  · intro hnil
    unfold get
    rw [hlf]
    simp only [except_bind_ok]
    rw [hq]
    simp only [except_bind_ok]
    rw [hnil]
    rfl
  · intro h2
    unfold get
    rw [hlf]
    simp only [except_bind_ok]
    rw [hq]
    simp only [except_bind_ok]
    cases hl : table.filter (fun r => r lf == v) with
    | nil => rw [hl] at h2; simp at h2
    | cons a t =>
      cases t with
      | nil => rw [hl] at h2; simp at h2
      | cons b t2 => rfl

/-- A row whose name column holds user2. -/
def rowU2 : Row := fun c => if c = "name" then PyVal.str "user2" else PyVal.int 0

/-- Claim C5, witness: an empty result returns the default value itself, and
two matching rows raise the ambiguous-lookup error. -/
theorem get_default_and_ambiguous_witness :
    get rowidUser ([] : List Row) (PyVal.str "nobody") (42 : Nat) = .ok (Sum.inr 42) ∧
    get rowidUser [rowU2, rowU2] (PyVal.str "user2") (0 : Nat) =
      .error .lookupNotUnique := by
  constructor
  · exact (get_default_and_ambiguous rowidUser [] (PyVal.str "nobody") 42 "name"
      ["rowid AS pk", "name", "last_name", "tel"] rfl rfl).1 rfl
  · refine (get_default_and_ambiguous rowidUser [rowU2, rowU2] (PyVal.str "user2") 0 "name"
      ["rowid AS pk", "name", "last_name", "tel"] rfl rfl).2 ?_
    have hfl : List.filter (fun r => r "name" == PyVal.str "user2") [rowU2, rowU2]
        = [rowU2, rowU2] := rfl
    rw [hfl]
    simp

/-- Claim C8: schema resolves each persisted field's column datatype as the
explicit override when present, else the field's declared static type name,
and fails with the type error when some persisted field's static type is a
union type with no explicit override. -/
theorem schema_datatype_resolution (ct : RecordType) (dbf : List FieldDesc)
    (hdb : get_db_fields ct = .ok dbf) :
    ((∀ f ∈ dbf, badUnion f = false) →
      schema ct = .ok (dbf.map (fun f =>
        (f.name, f.datatype.getD f.ftype.name, f.definition.getD "")))) ∧
    ((∃ f ∈ dbf, badUnion f = true) →
      schema ct = .error .unionNeedsDatatype) := by
  constructor
  · intro h
    unfold schema
    rw [hdb]
    simp only [except_bind_ok]
    exact schemaLoop_ok dbf h
  · intro h
    unfold schema
    rw [hdb]
    simp only [except_bind_ok]
    exact schemaLoop_bad dbf h

/-- A union-typed field with an explicit datatype override. -/
def overriddenUnionField : FieldDesc :=
  ⟨"id", true, some "INTEGER", Option.none, false, ⟨"UnionType", ["int", "NoneType"]⟩⟩

/-- A union-typed field without a datatype override. -/
def bareUnionField : FieldDesc :=
  ⟨"created", true, Option.none, Option.none, false, ⟨"UnionType", ["str", "NoneType"]⟩⟩

/-- A record type whose union-typed field carries an override. -/
def unionOkType : RecordType :=
  ⟨[overriddenUnionField, mkField "name" Option.none Option.none false "str"], false, ""⟩

/-- A record type whose union-typed field lacks an override. -/
def unionBadType : RecordType := ⟨[bareUnionField], false, ""⟩

/-- Claim C8, witness covering the override, static-name and union-error
resolutions. -/
theorem schema_datatype_resolution_witness :
    schema unionOkType = .ok [("id", "INTEGER", ""), ("name", "str", "")] ∧
    schema unionBadType = .error .unionNeedsDatatype := by
  constructor
  · exact (schema_datatype_resolution unionOkType
      [overriddenUnionField, mkField "name" Option.none Option.none false "str"]
      rfl).1 (by decide)
  · exact (schema_datatype_resolution unionBadType [bareUnionField] rfl).2
      ⟨bareUnionField, by simp, rfl⟩

/-- Claim C9: validate_schema returns true exactly when the stored table
definition's without-rowid flag agrees with the record type's without_rowid()
and the live column names equal the schema() column names as sets — an
unordered, membership-based comparison that ignores datatypes and
definitions. -/
theorem validate_schema_iff (ct : RecordType) (storedSchema : String)
    (liveCols : List String) (sch : List (String × String × String))
    (hs : schema ct = .ok sch) :
    validate_schema ct storedSchema liveCols = .ok true ↔
      (containsSub withoutRowidMarker (charsLower storedSchema) = ct.without_rowid ∧
       ∀ x : String, x ∈ liveCols ↔ x ∈ sch.map (fun c => c.1)) := by
  unfold validate_schema
  rw [hs]
  simp only [except_bind_ok, Except.ok.injEq, Bool.and_eq_true, beq_iff_eq, setEq_iff]

/-- Claim C9, witness: a stored rowid-table definition and matching live
column names validate to true. -/
theorem validate_schema_iff_witness :
    validate_schema rowidUser
      "CREATE TABLE users (name TEXT, last_name str, tel int UNIQUE)"
      ["name", "last_name", "tel"] = .ok true :=
  (validate_schema_iff rowidUser
    "CREATE TABLE users (name TEXT, last_name str, tel int UNIQUE)"
    ["name", "last_name", "tel"]
    [("name", "TEXT", ""), ("last_name", "str", ""), ("tel", "int", "UNIQUE")]
    rfl).mpr ⟨rfl, fun _ => Iff.rfl⟩

end UMTools
